import Mathlib

/-!
Shallow embedding of the wingbeat-modulation lidar data-acquisition core
(`src/wingbeat_lidar/digitizer.py` and `src/wingbeat_lidar/range_calibration.py`).

The Gage driver (`PyGage`) is an external collaborator: each embedded method
takes the driver's scripted responses as arguments.  Machine floats are
idealised as exact rationals (the spec states the arithmetic is exact up to
floating point); ADC codes and driver statuses are integers.  Python
exceptions are modelled by an explicit error type carried in `Except`.
-/

deriving instance DecidableEq for Except

namespace WingbeatLidar

/-- A TOML scalar as the configuration loader sees it: the digitizer config
fields `mode`, `source` and `condition` may be either strings or integers. -/
inductive TomlValue
  | str (s : String)
  | int (n : ℤ)
deriving DecidableEq, Repr

/-- Python `str.lower()` on the ASCII strings the configuration uses. -/
def pyLower (s : String) : String := String.mk (s.data.map Char.toLower)

/-! External driver constants (`gagesupport.GageConstants`).  Their exact
numeric values are opaque to this repository; the values below are the
standard CompuScope ones and no claim depends on them beyond distinctness. -/

def CS_MODE_SINGLE : ℤ := 1
def CS_MODE_DUAL : ℤ := 2
def CS_MODE_QUAD : ℤ := 4
def CS_MODE_OCT : ℤ := 8
def CS_TRIG_SOURCE_EXT : ℤ := -1
def CS_TRIG_COND_POS_SLOPE : ℤ := 1
def CS_TRIG_COND_NEG_SLOPE : ℤ := 0
def ACQ_STATUS_READY : ℤ := 4
def TxMODE_DEFAULT : ℤ := 0
def TxMODE_TIMESTAMP : ℤ := 3

/-- Sites at which the source raises `RuntimeError`, each carrying the
driver's numeric status where the source interpolates one.  The spec calls
the driver-status ones `HardwareError` and `emptyConfigs` (raised only by
`configure`) `ConfigError`. -/
inductive RuntimeErrKind
  | initializeFailed (status : ℤ)
  | getSystemFailed (status : ℤ)
  | getSystemInfoFailed (status : ℤ)
  | emptyConfigs (missing : List String)
  | setAcquisitionFailed (status : ℤ)
  | setChannelFailed (status : ℤ)
  | setTriggerFailed (status : ℤ)
  | commitFailed (status : ℤ)
  | startCaptureFailed (status : ℤ)
  | getStatusFailed (status : ℤ)
  | transferDataFailed (status : ℤ)
  | transferTimestampsFailed (status : ℤ)
  | getAcquisitionConfigFailed (status : ℤ)
deriving DecidableEq, Repr

/-- Sites at which the source (or numpy on its behalf) raises `ValueError`. -/
inductive ValueErrKind
  | invalidTriggerSource
  | invalidTriggerCondition
  | broadcastMismatch
  | firstDimMismatch
  | timestampDimMismatch
  | distanceDimMismatch
deriving DecidableEq, Repr

/-- The Python exceptions the embedded operations can surface.
`preconditionError` stands for the spec's §7 `PreconditionError` taxon; no
operation of this codebase ever produces it (there is no such class in the
source), and it is present only so spec claims phrased with it can be
stated and compared against what the code actually raises. -/
inductive PyError
  | runtimeError (k : RuntimeErrKind)
  | valueError (k : ValueErrKind)
  | typeError
  | attributeError
  | indexError
  | preconditionError
deriving DecidableEq, Repr

/-- Spec §7 classification: the `ConfigError` taxon is the `RuntimeError`
that `configure` raises when configuration sections are missing. -/
def PyError.isConfigError : PyError → Bool
  | .runtimeError (.emptyConfigs _) => true
  | _ => false

/-- Spec §7 classification: the `PreconditionError` taxon. -/
def PyError.isPreconditionError : PyError → Bool
  | .preconditionError => true
  | _ => false

/-- `AcquisitionConfig` NamedTuple (field order as in the source).  `Mode`
holds a `TomlValue` because `load_configuration` stores unrecognized mode
values without mapping them to a driver constant. -/
structure AcquisitionConfig where
  SampleRate : ℤ
  SegmentCount : ℕ
  SegmentSize : ℕ
  TriggerDelay : ℤ
  Mode : TomlValue
deriving DecidableEq, Repr

/-- `ChannelConfig` NamedTuple: voltages in millivolts, as in the config. -/
structure ChannelConfig where
  Channel : ℤ
  InputRange : ℤ
  DcOffset : ℤ
deriving DecidableEq, Repr

/-- `TriggerConfig` NamedTuple.  Condition and source are integers after
parsing (string synonyms are mapped to driver constants; integer values are
stored verbatim). -/
structure TriggerConfig where
  Condition : ℤ
  Level : ℤ
  Source : ℤ
deriving DecidableEq, Repr

/-- The raw values of a parsed digitizer TOML file, before
`load_configuration` normalizes them. -/
structure RawConfig where
  sample_rate : ℤ
  n_samples : ℕ
  trigger_delay : ℤ
  segment_count : ℕ
  mode : TomlValue
  channel : ℤ
  range : ℤ
  dc_offset : ℤ
  source : TomlValue
  condition : TomlValue
  level : ℤ
deriving DecidableEq, Repr

/-- The three config records `load_configuration` stores on the instance. -/
structure LoadedConfig where
  acquisition : AcquisitionConfig
  channel : ChannelConfig
  trigger : TriggerConfig
deriving DecidableEq, Repr

/-- The acquisition-mode normalization step of `Digitizer.load_configuration`
(digitizer.py lines 120-132): lowercase a string value, map the recognized
forms to driver constants, and fall through otherwise (no `else` raises). -/
def parse_mode (v : TomlValue) : TomlValue :=
  let mode := match v with
    | .str s => TomlValue.str (pyLower s)
    | .int n => TomlValue.int n
  if mode = .str "single" ∨ mode = .int 1 then .int CS_MODE_SINGLE
  else if mode = .str "dual" ∨ mode = .int 2 then .int CS_MODE_DUAL
  else if mode = .str "quad" ∨ mode = .int 4 then .int CS_MODE_QUAD
  else if mode = .str "oct" ∨ mode = .int 8 then .int CS_MODE_OCT
  else mode

/-- The trigger-source parsing of `load_configuration` (lines 149-158):
only the string "external" (case-insensitively) is accepted, any other
string raises `ValueError`; integers pass through verbatim. -/
def parse_trigger_source (v : TomlValue) : Except PyError ℤ :=
  match v with
  | .str s =>
      if pyLower s = "external" then .ok CS_TRIG_SOURCE_EXT
      else .error (.valueError .invalidTriggerSource)
  | .int n => .ok n

/-- The trigger-condition parsing of `load_configuration` (lines 163-175):
the rising/falling string synonyms map to the slope constants, any other
string raises `ValueError`; integers pass through verbatim. -/
def parse_trigger_condition (v : TomlValue) : Except PyError ℤ :=
  match v with
  | .str s =>
      let c := pyLower s
      if c = "rising" ∨ c = "r" ∨ c = "positive" ∨ c = "p" then
        .ok CS_TRIG_COND_POS_SLOPE
      else if c = "falling" ∨ c = "f" ∨ c = "negative" ∨ c = "n" then
        .ok CS_TRIG_COND_NEG_SLOPE
      else .error (.valueError .invalidTriggerCondition)
  | .int n => .ok n

/-- `Digitizer.load_configuration` after the TOML parse: normalize the mode,
build the acquisition and channel records, then parse trigger source and
condition (each of which can raise) and build the trigger record. -/
def Digitizer.load_configuration (c : RawConfig) : Except PyError LoadedConfig :=
  let mode := parse_mode c.mode
  let acq : AcquisitionConfig :=
    { SampleRate := c.sample_rate, SegmentCount := c.segment_count,
      SegmentSize := c.n_samples, TriggerDelay := c.trigger_delay, Mode := mode }
  let chan : ChannelConfig :=
    { Channel := c.channel, InputRange := c.range, DcOffset := c.dc_offset }
  match parse_trigger_source c.source with
  | .error e => .error e
  | .ok src =>
      match parse_trigger_condition c.condition with
      | .error e => .error e
      | .ok cond =>
          .ok { acquisition := acq, channel := chan,
                trigger := { Condition := cond, Level := c.level, Source := src } }

/-- The module-wide calibration dictionary of `range_calibration.py`
(`calibration = `slope/offset/date, each initially `None`). -/
structure Calibration where
  slope : Option ℚ
  offset : Option ℚ
deriving DecidableEq, Repr

/-- `compute_range` (range_calibration.py lines 174-188): the body is the
single expression `calibration[slope] * range_bins + calibration[offset]`.
When either constant is still `None`, Python's `None * array` / `array +
None` arithmetic raises `TypeError`; there is no explicit check. -/
def compute_range (cal : Calibration) (range_bins : List ℚ) :
    Except PyError (List ℚ) :=
  match cal.slope, cal.offset with
  | some s, some o => .ok (range_bins.map (fun b => s * b + o))
  | _, _ => .error .typeError

/-- `np.round`: round half to even, as numpy does. -/
def npRound (x : ℚ) : ℤ :=
  let f := ⌊x⌋
  let r := x - f
  if r < 1/2 then f
  else if 1/2 < r then f + 1
  else if f % 2 = 0 then f else f + 1

/-- `Digitizer._transfer_timestamps` after the `TransferData` call
(digitizer.py lines 406-440): a scalar return is a `RuntimeError`; otherwise
the raw counts are converted to nanoseconds with
`np.round(counts / counts_per_second * 1e9)` — `counts_per_second` being
whatever integer `PyGage.GetTimeStampFrequency` returned, used unchecked —
and the first timestamp is subtracted from the whole sequence. -/
def Digitizer.transfer_timestamps (tsRet : Except ℤ (List ℤ × ℤ × ℤ))
    (tsFreq : ℤ) : Except PyError (List ℤ) :=
  match tsRet with
  | .error code => .error (.runtimeError (.transferTimestampsFailed code))
  | .ok (counts, _, _) =>
      let timestamps := counts.map (fun c => npRound ((c : ℚ) / (tsFreq : ℚ) * 1000000000))
      match timestamps with
      | [] => .error .indexError
      | t0 :: _ => .ok (timestamps.map (fun t => t - t0))

/-- The `SampleOffset` and `SampleResolution` entries of the driver's live
acquisition configuration (device-intrinsic constants). -/
structure AcqDriverInfo where
  SampleOffset : ℤ
  SampleResolution : ℤ
deriving DecidableEq, Repr

/-- `Digitizer.convert_to_volts` (digitizer.py lines 442-499): fetch the
driver acquisition config (an `int` return is a `RuntimeError`), convert the
channel's millivolt settings to volts, and apply the conversion equation
element-wise. -/
def Digitizer.convert_to_volts (acqRet : Except ℤ AcqDriverInfo)
    (chan : ChannelConfig) (raw_data : List (List ℤ)) :
    Except PyError (List (List ℚ)) :=
  match acqRet with
  | .error code => .error (.runtimeError (.getAcquisitionConfigFailed code))
  | .ok acq_config =>
      let sample_offset : ℚ := acq_config.SampleOffset
      let sample_resolution : ℚ := acq_config.SampleResolution
      let input_range : ℚ := (chan.InputRange : ℚ) / 1000
      let dc_offset : ℚ := (chan.DcOffset : ℚ) / 1000
      .ok (raw_data.map (fun row => row.map (fun code =>
        (sample_offset - (code : ℚ)) / sample_resolution * (input_range / 2)
          + dc_offset)))

/-- One `PyGage.TransferData` call as `_transfer_data_from_adc` issues it:
the positional arguments after the handle. -/
structure TransferCall where
  channel : ℤ
  mode : ℤ
  segment : ℕ
  startAddress : ℤ
  length : ℕ
deriving DecidableEq, Repr

/-- The segment loop of `_transfer_data_from_adc` (digitizer.py lines
335-378), over an explicit list of segment indices, with the driver's
response to each call scripted by `driver`.  Returns the calls issued (in
order) and either the matrix as a list of columns — the column at position
`s - 1` is the sample vector the call for segment `s` returned — or the
error that aborted the loop.  An `int` return raises `RuntimeError`; a
sample vector of the wrong length makes the numpy column assignment
`data[:, segment - 1] = ret[0]` raise a broadcast `ValueError`.  The
non-fatal alignment warnings (lines 365-378) affect neither the calls nor
the returned data and are not modelled. -/
def transferSegments (ch sa : ℤ) (sz : ℕ)
    (driver : ℕ → Except ℤ (List ℤ × ℤ × ℤ)) :
    List ℕ → List TransferCall × Except PyError (List (List ℤ))
  | [] => ([], .ok [])
  | s :: rest =>
      let call : TransferCall :=
        { channel := ch, mode := TxMODE_DEFAULT, segment := s,
          startAddress := sa, length := sz }
      match driver s with
      | .error code => ([call], .error (.runtimeError (.transferDataFailed code)))
      | .ok (v, _, _) =>
          if v.length = sz then
            match transferSegments ch sa sz driver rest with
            | (calls, .ok cols) => (call :: calls, .ok (v :: cols))
            | (calls, .error e) => (call :: calls, .error e)
          else ([call], .error (.valueError .broadcastMismatch))

/-- `Digitizer._transfer_data_from_adc` (digitizer.py lines 313-380): one
`TransferData` call per segment index from 1 to `SegmentCount` inclusive,
at the configured channel, default transfer mode, start address
`TriggerDelay` and length `SegmentSize`. -/
def Digitizer.transfer_data_from_adc (acq : AcquisitionConfig)
    (chan : ChannelConfig) (driver : ℕ → Except ℤ (List ℤ × ℤ × ℤ)) :
    List TransferCall × Except PyError (List (List ℤ)) :=
  transferSegments chan.Channel acq.TriggerDelay acq.SegmentSize driver
    (List.range' 1 acq.SegmentCount)

/-- The mutable state of a `Digitizer` instance that `capture` reads:
`_digitizer_handle` and the three config records (each `None` until
`initialize` / `load_configuration` set them). -/
structure DigitizerState where
  handle : Option ℤ
  acquisition_config : Option AcquisitionConfig
  channel_config : Option ChannelConfig
  trigger_config : Option TriggerConfig
deriving DecidableEq, Repr

/-- The `GetStatus` poll loop of `capture` (digitizer.py lines 297-305) over
a scripted list of successive status returns: exit on `ACQ_STATUS_READY`,
raise on a negative status, keep polling otherwise.  `none` models the
scripted responses running out, i.e. the loop (which has no timeout)
still spinning. -/
def pollStatus : List ℤ → Option (Except PyError Unit)
  | [] => none
  | s :: rest =>
      if s = ACQ_STATUS_READY then some (.ok ())
      else if s < 0 then some (.error (.runtimeError (.getStatusFailed s)))
      else pollStatus rest

/-- The driver interactions `capture` performs, recorded in order. -/
inductive CaptureEvent
  | startCapture (handle : Option ℤ)
  | transferData (call : TransferCall)
  | transferTimestamps
deriving DecidableEq, Repr

/-- The scripted responses of every driver call a single `capture` makes. -/
structure DriverScript where
  startRet : ℤ
  polls : List ℤ
  transfer : ℕ → Except ℤ (List ℤ × ℤ × ℤ)
  tsTransfer : Except ℤ (List ℤ × ℤ × ℤ)
  tsFreq : ℤ
  now : String

/-- The value `capture` returns: `(data, timestamps, capture_start_time)`.
`data` is kept as a list of columns (column `s - 1` holds segment `s`). -/
structure CaptureResult where
  data : List (List ℤ)
  timestamps : List ℤ
  capture_start_time : String
deriving DecidableEq, Repr

/-- `Digitizer.capture` (digitizer.py lines 268-311).  Its body starts with
`PyGage.StartCapture(self._digitizer_handle)` — there is no precondition
check of any kind before that call.  A negative start status raises; then
the status poll; then the two transfers.  The transfer helpers read
`self.acquisition_config` / `self.channel_config`; when a config is still
`None` the attribute access on `None` raises `AttributeError`.  Returns the
ordered event trace and `none` when the untimed poll loop never exits. -/
def Digitizer.capture (st : DigitizerState) (drv : DriverScript) :
    List CaptureEvent × Option (Except PyError CaptureResult) :=
  let tail : List CaptureEvent × Option (Except PyError CaptureResult) :=
    if drv.startRet < 0 then
      ([], some (.error (.runtimeError (.startCaptureFailed drv.startRet))))
    else
      match pollStatus drv.polls with
      | none => ([], none)
      | some (.error e) => ([], some (.error e))
      | some (.ok _) =>
          match st.acquisition_config, st.channel_config with
          | some acq, some chan =>
              match Digitizer.transfer_data_from_adc acq chan drv.transfer with
              | (calls, .error e) =>
                  (calls.map CaptureEvent.transferData, some (.error e))
              | (calls, .ok data) =>
                  let evs := calls.map CaptureEvent.transferData
                    ++ [CaptureEvent.transferTimestamps]
                  match Digitizer.transfer_timestamps drv.tsTransfer drv.tsFreq with
                  | .error e => (evs, some (.error e))
                  | .ok ts =>
                      (evs, some (.ok { data := data, timestamps := ts,
                                        capture_start_time := drv.now }))
          | _, _ => ([], some (.error .attributeError))
  (CaptureEvent.startCapture st.handle :: tail.1, tail.2)

/-- `Digitizer.configure` (digitizer.py lines 181-266) reduced to its
observable outcome: the missing-section check (the spec's `ConfigError`),
then the four driver calls, each raising on a negative status. -/
def Digitizer.configure (st : DigitizerState)
    (setAcqRet setChanRet setTrigRet commitRet : ℤ) : Except PyError Unit :=
  let missing :=
    (if st.acquisition_config = none then ["acquisition"] else [])
      ++ (if st.channel_config = none then ["channel"] else [])
      ++ (if st.trigger_config = none then ["trigger"] else [])
  if missing ≠ [] then .error (.runtimeError (.emptyConfigs missing))
  else if setAcqRet < 0 then .error (.runtimeError (.setAcquisitionFailed setAcqRet))
  else if setChanRet < 0 then .error (.runtimeError (.setChannelFailed setChanRet))
  else if setTrigRet < 0 then .error (.runtimeError (.setTriggerFailed setTrigRet))
  else if commitRet < 0 then .error (.runtimeError (.commitFailed commitRet))
  else .ok ()

/-! ## Range calibration (`range_calibration.py`) -/

/-- The index of the first minimal element, `np.argmin` on a 1-D array. -/
def argminIdx (xs : List ℤ) : ℕ :=
  match xs.enum.foldl (fun best p =>
      match best with
      | none => some p
      | some q => if p.2 < q.2 then some p else some q) none with
  | some q => q.1
  | none => 0

/-- The columns of a rectangular matrix stored as a list of rows: column `j`
collects entry `j` of every row. -/
def colsOf (m : List (List ℤ)) : List (List ℤ) :=
  (List.range m.headI.length).map (fun j => m.map (fun row => row.getD j 0))

/-- Insertion into an ascending-sorted list (used to embed `np.sort`, whose
output — the sorted values — any correct ascending sort reproduces). -/
def insertSorted (x : ℚ) : List ℚ → List ℚ
  | [] => [x]
  | y :: t => if x ≤ y then x :: y :: t else y :: insertSorted x t

/-- Ascending sort by repeated insertion. -/
def sortAsc (l : List ℚ) : List ℚ := l.foldr insertSorted []

/-- `np.median`: sort, then take the middle element (odd length) or the mean
of the two middle elements (even length). -/
def npMedian (xs : List ℚ) : ℚ :=
  let s := sortAsc xs
  let n := s.length
  if n % 2 = 1 then s.getD (n / 2) 0
  else (s.getD (n / 2 - 1) 0 + s.getD (n / 2) 0) / 2

/-- `np.var`: the population variance, mean of squared deviations. -/
def npVar (xs : List ℚ) : ℚ :=
  let n : ℚ := xs.length
  let m := xs.sum / n
  (xs.map (fun x => (x - m) ^ 2)).sum / n

/-- The per-capture target bins of `compute_calibration_equation`
(range_calibration.py lines 139-146): for each capture, `np.argmin` along
the range-bin axis of every segment column, then the median of those
per-segment bins. -/
def targetBins (data : List (List (List ℤ))) : List ℚ :=
  data.map (fun capture =>
    npMedian ((colsOf capture).map (fun col => (argminIdx col : ℚ))))

def lstsqSx (pts : List (ℚ × ℚ)) : ℚ := (pts.map (fun p => p.1)).sum

def lstsqSy (pts : List (ℚ × ℚ)) : ℚ := (pts.map (fun p => p.2)).sum

def lstsqSxx (pts : List (ℚ × ℚ)) : ℚ := (pts.map (fun p => p.1 * p.1)).sum

def lstsqSxy (pts : List (ℚ × ℚ)) : ℚ := (pts.map (fun p => p.1 * p.2)).sum

/-- The determinant of the Gram matrix of the design matrix `[x 1]`:
nonzero exactly when the design matrix has full column rank. -/
def lstsqDen (pts : List (ℚ × ℚ)) : ℚ :=
  (pts.length : ℚ) * lstsqSxx pts - lstsqSx pts * lstsqSx pts

/-- Normal-equation solution components of the full-rank case. -/
def lstsqSlope (pts : List (ℚ × ℚ)) : ℚ :=
  ((pts.length : ℚ) * lstsqSxy pts - lstsqSx pts * lstsqSy pts) / lstsqDen pts

def lstsqOffset (pts : List (ℚ × ℚ)) : ℚ :=
  (lstsqSy pts * lstsqSxx pts - lstsqSx pts * lstsqSxy pts) / lstsqDen pts

/-- `np.linalg.lstsq` on the system `[x 1] · (slope, offset) = y`, in exact
arithmetic: the normal-equation solution when the design matrix has full
column rank, and the minimum-norm least-squares (pseudoinverse) solution in
the rank-deficient case (all `x` equal to some `c`, where the solution space
is `slope·c + offset = mean y` and the minimum-norm point is
`(c·ȳ, ȳ) / (c² + 1)`). -/
def lstsqFit (pts : List (ℚ × ℚ)) : ℚ × ℚ :=
  if lstsqDen pts = 0 then
    let c := (pts.map (fun p => p.1)).headI
    let ybar := lstsqSy pts / (pts.length : ℚ)
    (c * ybar / (c * c + 1), ybar / (c * c + 1))
  else (lstsqSlope pts, lstsqOffset pts)

/-- The residual sum of squares of a candidate line over the points. -/
def rssOf (pts : List (ℚ × ℚ)) (s o : ℚ) : ℚ :=
  (pts.map (fun p => (s * p.1 + o - p.2) ^ 2)).sum

/-- The `residuals` return of `np.linalg.lstsq`: the sum of squared
residuals, returned only when the coefficient matrix has full column rank
and strictly more rows than columns (here: at least 3 points); otherwise an
empty array, modelled as `none`. -/
def lstsqResiduals (pts : List (ℚ × ℚ)) : Option ℚ :=
  if 3 ≤ pts.length ∧ lstsqDen pts ≠ 0 then
    some (rssOf pts (lstsqFit pts).1 (lstsqFit pts).2)
  else none

/-- The triple `compute_calibration_equation` returns, with `warned`
recording whether the empty-residuals warning was emitted (in the source
`r2` is then the empty list, modelled as `none`). -/
structure CalibrationFit where
  slope : ℚ
  offset : ℚ
  r2 : Option ℚ
  warned : Bool
deriving DecidableEq, Repr

/-- `compute_calibration_equation` (range_calibration.py lines 109-171):
per-capture target bins by argmin-then-median, least-squares fit of
`distance = slope * target_bin + offset`, and, when the residuals are
non-empty, `r2 = 1 - residuals / (N_CAPTURES * distance.var())`. -/
def compute_calibration_equation (data : List (List (List ℤ)))
    (distance : List ℚ) : CalibrationFit :=
  let target_bin := targetBins data
  let pts := target_bin.zip distance
  let fit := lstsqFit pts
  match lstsqResiduals pts with
  | some rss =>
      let total_sum_of_squares := (data.length : ℚ) * npVar distance
      { slope := fit.1, offset := fit.2,
        r2 := some (1 - rss / total_sum_of_squares), warned := false }
  | none => { slope := fit.1, offset := fit.2, r2 := none, warned := true }

/-! ## Archive shape validation (`Digitizer.save_data_in_h5`) -/

/-- The `capture_time` argument: a single datetime string or an array of
them (only its shape matters to the validation). -/
inductive CaptureTimeArg
  | str (s : String)
  | arr (shape : List ℕ)
deriving DecidableEq, Repr

/-- Promotion of a single-capture 2-D data array (digitizer.py line 588):
`np.expand_dims(data, axis=0)`. -/
def promote_data (shape : List ℕ) : List ℕ :=
  if shape.length = 2 then 1 :: shape else shape

/-- Promotion of single-capture 1-D timestamps (line 590). -/
def promote_timestamps (shape : List ℕ) : List ℕ :=
  if shape.length = 1 then 1 :: shape else shape

/-- Promotion of a single capture-time string (lines 592-594):
`np.array([capture_time])` has shape `[1]` and `expand_dims` prepends
another axis, so the result has shape `[1, 1]`. -/
def promote_capture_time : CaptureTimeArg → List ℕ
  | .str _ => [1, 1]
  | .arr shape => shape

/-- `shape[i]`, raising `IndexError` past the number of dimensions. -/
def shapeAt (shape : List ℕ) (i : ℕ) : Except PyError ℕ :=
  match shape.get? i with
  | some n => .ok n
  | none => .error .indexError

/-- The dimension validation of `Digitizer.save_data_in_h5` (digitizer.py
lines 586-627) on the shapes of its array arguments: promote single-capture
arguments first, then check that the first dimensions all agree, that the
second timestamp dimension equals the segment dimension, and that the
distance vector (when given, represented by its length) matches the
range-bin dimension. -/
def save_data_in_h5_shape_check (dataShape tsShape : List ℕ)
    (ct : CaptureTimeArg) (distLen : Option ℕ) : Except PyError Unit := do
  let data := promote_data dataShape
  let ts := promote_timestamps tsShape
  let cts := promote_capture_time ct
  let d0 ← shapeAt data 0
  let ts0 ← shapeAt ts 0
  let ct0 ← shapeAt cts 0
  if ¬(d0 = ts0 ∧ d0 = ct0) then
    throw (.valueError .firstDimMismatch)
  else do
    let d2 ← shapeAt data 2
    let ts1 ← shapeAt ts 1
    if d2 ≠ ts1 then throw (.valueError .timestampDimMismatch)
    else
      match distLen with
      | some len => do
          let d1 ← shapeAt data 1
          if d1 ≠ len then throw (.valueError .distanceDimMismatch)
          else pure ()
      | none => pure ()

/-- The sample vector a scripted driver returned for a segment (the value
`_transfer_data_from_adc` writes into the segment's column). -/
def okSamples (driver : ℕ → Except ℤ (List ℤ × ℤ × ℤ)) (s : ℕ) : List ℤ :=
  match driver s with
  | .ok (v, _, _) => v
  | .error _ => []

/-! Concrete inputs used by witnesses and counterexamples. -/

/-- A raw config whose acquisition mode is the unrecognized string "X". -/
def cfg9 : RawConfig :=
  { sample_rate := 1000, n_samples := 8, trigger_delay := 0, segment_count := 2,
    mode := .str "X", channel := 1, range := 2000, dc_offset := 0,
    source := .int 1, condition := .int 1, level := 50 }

/-- An initialized but unconfigured session: the handle is held, all three
config records are still `None`. -/
def st5 : DigitizerState :=
  { handle := some 1, acquisition_config := none, channel_config := none,
    trigger_config := none }

/-- A driver script on which every call `capture` makes succeeds. -/
def drv5 : DriverScript :=
  { startRet := 1, polls := [ACQ_STATUS_READY], transfer := fun _ => .error 0,
    tsTransfer := .ok ([0], 1, 1), tsFreq := 1, now := "t" }

/-- Three identical captures (target in bin 1 of the single segment), so
every per-capture target bin is the same and the design matrix is
rank-deficient. -/
def data8 : List (List (List ℤ)) := [[[0], [-5]], [[0], [-5]], [[0], [-5]]]

/-- Two captures, 2 range bins × 1 segment, targets in bins 1 and 0. -/
def calData1 : List (List (List ℤ)) := [[[0], [-5]], [[-5], [0]]]

def calDist1 : List ℚ := [10, 20]

def acq4 : AcquisitionConfig :=
  { SampleRate := 1000, SegmentCount := 2, SegmentSize := 3,
    TriggerDelay := 5, Mode := .int 1 }

def chan4 : ChannelConfig := { Channel := 1, InputRange := 2000, DcOffset := 0 }

def driver4 : ℕ → Except ℤ (List ℤ × ℤ × ℤ) :=
  fun s => .ok ([(s : ℤ), 0, 7], (5, 3))

/-! ## Theorems -/

/-- C2: `convert_to_volts` is the element-wise linear map
`(sample_offset - raw_code) / sample_resolution * (input_range/1000 / 2)
+ dc_offset/1000` with `input_range` and `dc_offset` the channel config's
millivolt values, and a raw code equal to `sample_offset` maps to exactly
`dc_offset/1000` volts. -/
theorem convert_to_volts_formula :
    ∀ (so res : ℤ) (chan : ChannelConfig) (raw : List (List ℤ)),
      Digitizer.convert_to_volts
          (.ok { SampleOffset := so, SampleResolution := res }) chan raw
        = .ok (raw.map (fun row => row.map (fun code =>
            ((so : ℚ) - (code : ℚ)) / (res : ℚ)
              * ((chan.InputRange : ℚ) / 1000 / 2) + (chan.DcOffset : ℚ) / 1000)))
      ∧ ∀ row ∈ raw, ∀ code ∈ row, code = so →
          ((so : ℚ) - (code : ℚ)) / (res : ℚ)
              * ((chan.InputRange : ℚ) / 1000 / 2) + (chan.DcOffset : ℚ) / 1000
            = (chan.DcOffset : ℚ) / 1000 := by
  intro so res chan raw
  constructor
  · rfl
  · intro row _ code _ h
    subst h
    simp

/-- C3: a successful timestamp transfer converts each raw count with
`round(count / counts_per_second * 1e9)` and subtracts the first converted
timestamp from the whole sequence, so the returned sequence starts at
exactly 0. -/
theorem transfer_timestamps_normalized :
    ∀ (c0 : ℤ) (rest : List ℤ) (a l freq : ℤ),
      Digitizer.transfer_timestamps (.ok (c0 :: rest, a, l)) freq
        = .ok ((c0 :: rest).map (fun c =>
            npRound ((c : ℚ) / (freq : ℚ) * 1000000000)
              - npRound ((c0 : ℚ) / (freq : ℚ) * 1000000000)))
      ∧ ((c0 :: rest).map (fun c =>
            npRound ((c : ℚ) / (freq : ℚ) * 1000000000)
              - npRound ((c0 : ℚ) / (freq : ℚ) * 1000000000))).head? = some 0 := by
  intro c0 rest a l freq
  constructor
  · simp [Digitizer.transfer_timestamps]
  · simp

/-- C7: the code never checks the status `PyGage.GetTimeStampFrequency`
returns; at the failing input where the frequency call reports status `-1`
and the counts are `[0, 5]`, the embedded `_transfer_timestamps` raises no
error and silently folds the negative status into the conversion, returning
the garbage timestamps `[0, -5000000000]`. -/
theorem transfer_timestamps_negative_freq_unchecked :
    Digitizer.transfer_timestamps (.ok ([0, 5], 1, 2)) (-1)
      = .ok [0, -5000000000] := by
  have hf : Int.fract ((-5000000000 : ℚ)) = 0 := by rw [Int.fract]; norm_num
  have h0 : ((0 : ℤ) : ℚ) / ((-1 : ℤ) : ℚ) * 1000000000 = 0 := by norm_num
  have h5 : ((5 : ℤ) : ℚ) / ((-1 : ℤ) : ℚ) * 1000000000 = -5000000000 := by norm_num
  simp only [Digitizer.transfer_timestamps, List.map_cons, List.map_nil, h0, h5]
  norm_num [npRound, hf]

/-- C6 counterexample: with the calibration dictionary still unset,
`compute_range` fails with a `TypeError` (Python's `None * array`
arithmetic), which is not the spec's `PreconditionError`. -/
theorem compute_range_unset_type_error_cex :
    compute_range { slope := none, offset := none } [0, 1, 2]
        = .error .typeError
      ∧ (Except.error PyError.typeError : Except PyError (List ℚ))
          ≠ .error .preconditionError := by
  exact ⟨rfl, by simp⟩

/-- C6 amended: `compute_range` maps `slope * range_bin + offset` over any
input when both calibration constants are set; when either is unset the
call fails, but with an unchecked `TypeError` from `None` arithmetic rather
than a dedicated precondition error. -/
theorem compute_range_behavior :
    ∀ (cal : Calibration) (bins : List ℚ),
      (∀ s o, cal = { slope := some s, offset := some o } →
          compute_range cal bins = .ok (bins.map (fun b => s * b + o)))
      ∧ (cal.slope = none ∨ cal.offset = none →
          compute_range cal bins = .error .typeError) := by
  intro cal bins
  constructor
  · intro s o h
    subst h
    rfl
  · intro h
    obtain ⟨cs, co⟩ := cal
    cases cs <;> cases co <;> simp_all [compute_range]

/-- C9 counterexample: a config whose mode is the unrecognized string "X"
loads without error, but the stored `Mode` is the lowercased "x", not the
verbatim value. -/
theorem load_configuration_mode_lowercased_cex :
    (Digitizer.load_configuration cfg9).map (fun l => l.acquisition.Mode)
        = .ok (.str "x")
      ∧ cfg9.mode = .str "X"
      ∧ TomlValue.str "x" ≠ TomlValue.str "X" := by
  refine ⟨rfl, rfl, by decide⟩

/-- C9 amended: `load_configuration` never validates or rejects the
acquisition mode (unlike trigger source and condition): an unrecognized
integer mode is stored verbatim, an unrecognized string mode is stored
after lowercasing, and a config with an unrecognized mode loads whenever
its trigger fields parse. -/
theorem load_configuration_mode_unvalidated :
    ∀ (c : RawConfig),
      (∀ n : ℤ, c.mode = .int n → ¬(n = 1 ∨ n = 2 ∨ n = 4 ∨ n = 8) →
          parse_mode c.mode = .int n)
      ∧ (∀ s : String, c.mode = .str s →
          ¬(pyLower s = "single" ∨ pyLower s = "dual" ∨ pyLower s = "quad"
              ∨ pyLower s = "oct") →
          parse_mode c.mode = .str (pyLower s))
      ∧ (∀ l, Digitizer.load_configuration c = .ok l →
          l.acquisition.Mode = parse_mode c.mode)
      ∧ ((parse_trigger_source c.source).isOk = true →
          (parse_trigger_condition c.condition).isOk = true →
          (Digitizer.load_configuration c).isOk = true) := by
  intro c
  refine ⟨?_, ?_, ?_, ?_⟩
  · intro n h hn
    rw [h]
    push_neg at hn
    obtain ⟨h1, h2, h4, h8⟩ := hn
    simp [parse_mode, CS_MODE_SINGLE, CS_MODE_DUAL, CS_MODE_QUAD, CS_MODE_OCT,
      h1, h2, h4, h8]
  · intro s h hs
    rw [h]
    push_neg at hs
    obtain ⟨h1, h2, h4, h8⟩ := hs
    simp [parse_mode, h1, h2, h4, h8]
  · intro l h
    cases hs : parse_trigger_source c.source with
    | error e => simp [Digitizer.load_configuration, hs] at h
    | ok src =>
        cases hc : parse_trigger_condition c.condition with
        | error e => simp [Digitizer.load_configuration, hs, hc] at h
        | ok cond =>
            simp [Digitizer.load_configuration, hs, hc] at h
            simp [← h]
  · intro hsrc hcond
    cases hs : parse_trigger_source c.source with
    | error e => simp [hs, Except.isOk, Except.toBool] at hsrc
    | ok src =>
        cases hc : parse_trigger_condition c.condition with
        | error e => simp [hc, Except.isOk, Except.toBool] at hcond
        | ok cond =>
            simp [Digitizer.load_configuration, hs, hc, Except.isOk, Except.toBool]

/-- C10: `save_data_in_h5` promotes a single capture (2-D data, 1-D
timestamps, one capture-time string) to multi-capture form — shapes
`(1, samples, segments)`, `(1, len)` and a first dimension of 1 — before
any validation runs, so the first-dimension consistency check never fails
for a single capture. -/
theorem save_data_in_h5_single_capture_promotion :
    ∀ (s g tsLen : ℕ) (t : String) (dist : Option ℕ),
      promote_data [s, g] = [1, s, g]
      ∧ promote_timestamps [tsLen] = [1, tsLen]
      ∧ (promote_capture_time (.str t)).headI = 1
      ∧ save_data_in_h5_shape_check [s, g] [tsLen] (.str t) dist
          ≠ .error (.valueError .firstDimMismatch) := by
  intro s g tsLen t dist
  refine ⟨rfl, rfl, rfl, ?_⟩
  simp only [save_data_in_h5_shape_check, promote_data, promote_timestamps,
    promote_capture_time, shapeAt, List.length_cons, List.length_nil, List.get?]
  norm_num
  cases dist with
  | none =>
      by_cases hg : g = tsLen <;>
        simp [hg, Bind.bind, Except.bind, throw, throwThe, MonadExceptOf.throw,
          pure, Except.pure]
  | some len =>
      by_cases hg : g = tsLen <;> by_cases hl : s = len <;>
        simp [hg, hl, Bind.bind, Except.bind, throw, throwThe,
          MonadExceptOf.throw, pure, Except.pure]

/-- C5 counterexample: on an initialized but unconfigured session (all three
config records `None`) with a driver script on which every issued call
succeeds, `capture` issues the hardware start-capture call (it is the first
and only event before the failure) and then fails with an
`AttributeError` from dereferencing the missing config — not with a
config or precondition error. -/
theorem capture_unconfigured_starts_capture_cex :
    (Digitizer.capture st5 drv5).1 = [CaptureEvent.startCapture (some 1)]
      ∧ (Digitizer.capture st5 drv5).2 = some (.error .attributeError)
      ∧ PyError.isConfigError .attributeError = false
      ∧ PyError.isPreconditionError .attributeError = false := by
  exact ⟨rfl, rfl, rfl, rfl⟩

/-- C5 amended: `capture` performs no precondition check whatsoever: for
every session state — configured or not, initialized or not — and every
driver script, its first recorded action is the hardware start-capture
call on the current handle. -/
theorem capture_no_precondition_check :
    ∀ (st : DigitizerState) (drv : DriverScript),
      (Digitizer.capture st drv).1.head? = some (.startCapture st.handle) := by
  intro st drv
  rfl

/-- The calls and columns of the transfer loop when the driver answers every
segment with a correctly-sized sample vector. -/
theorem transferSegments_all_ok (ch sa : ℤ) (sz : ℕ)
    (driver : ℕ → Except ℤ (List ℤ × ℤ × ℤ)) :
    ∀ segs : List ℕ,
      (∀ s ∈ segs, ∃ v rest, driver s = .ok (v, rest) ∧ v.length = sz) →
      transferSegments ch sa sz driver segs
        = (segs.map (fun s =>
            TransferCall.mk ch TxMODE_DEFAULT s sa sz),
           .ok (segs.map (okSamples driver))) := by
  intro segs
  induction segs with
  | nil => intro _; rfl
  | cons s rest ih =>
      intro h
      obtain ⟨v, r, hok, hlen⟩ := h s (List.mem_cons_self s rest)
      have hrest := ih (fun x hx => h x (List.mem_cons_of_mem s hx))
      simp only [transferSegments, hok, hlen, if_true, hrest, List.map_cons,
        okSamples]

/-- `getD` of a mapped `range'`. -/
theorem getD_map_range' (f : ℕ → List ℤ) (d : List ℤ) :
    ∀ (n st i : ℕ), i < n →
      ((List.range' st n).map f).getD i d = f (st + i) := by
  intro n
  induction n with
  | zero => intro st i hi; omega
  | succ m ih =>
      intro st i hi
      cases i with
      | zero => simp [List.range']
      | succ j =>
          have := ih (st + 1) j (by omega)
          simpa [List.range', Nat.add_assoc, Nat.add_comm 1 j] using this

/-- C4: on a configured session, the raw transfer issues exactly one
`TransferData` call per segment index from 1 to `SegmentCount` inclusive —
each with the configured channel, default transfer mode, start address
`TriggerDelay` and length `SegmentSize` — and (when every call succeeds)
writes the vector the call for segment `s` returned into column `s - 1`
(position `i` of the column list holds the samples of segment `i + 1`). -/
theorem transfer_data_segment_calls :
    ∀ (acq : AcquisitionConfig) (chan : ChannelConfig)
      (driver : ℕ → Except ℤ (List ℤ × ℤ × ℤ)),
      (∀ s ∈ List.range' 1 acq.SegmentCount,
          ∃ v rest, driver s = .ok (v, rest) ∧ v.length = acq.SegmentSize) →
      (Digitizer.transfer_data_from_adc acq chan driver).1
          = (List.range' 1 acq.SegmentCount).map (fun s =>
              TransferCall.mk chan.Channel TxMODE_DEFAULT s acq.TriggerDelay
                acq.SegmentSize)
      ∧ (Digitizer.transfer_data_from_adc acq chan driver).2
          = .ok ((List.range' 1 acq.SegmentCount).map (okSamples driver))
      ∧ ∀ i, i < acq.SegmentCount →
          ((List.range' 1 acq.SegmentCount).map (okSamples driver)).getD i []
            = okSamples driver (1 + i) := by
  intro acq chan driver h
  have := transferSegments_all_ok chan.Channel acq.TriggerDelay
    acq.SegmentSize driver (List.range' 1 acq.SegmentCount) h
  refine ⟨?_, ?_, ?_⟩
  · rw [Digitizer.transfer_data_from_adc, this]
  · rw [Digitizer.transfer_data_from_adc, this]
  · intro i hi
    exact getD_map_range' (okSamples driver) [] acq.SegmentCount 1 i hi

/-- C4 witness: the theorem applied to a concrete 2-segment configuration
and a driver that answers every segment. -/
theorem transfer_data_segment_calls_wit :
    (∀ s ∈ List.range' 1 acq4.SegmentCount,
        ∃ v rest, driver4 s = .ok (v, rest) ∧ v.length = acq4.SegmentSize)
    ∧ ((Digitizer.transfer_data_from_adc acq4 chan4 driver4).1
          = (List.range' 1 acq4.SegmentCount).map (fun s =>
              TransferCall.mk chan4.Channel TxMODE_DEFAULT s acq4.TriggerDelay
                acq4.SegmentSize)
        ∧ (Digitizer.transfer_data_from_adc acq4 chan4 driver4).2
            = .ok ((List.range' 1 acq4.SegmentCount).map (okSamples driver4))
        ∧ ∀ i, i < acq4.SegmentCount →
            ((List.range' 1 acq4.SegmentCount).map (okSamples driver4)).getD i []
              = okSamples driver4 (1 + i)) := by
  have h : ∀ s ∈ List.range' 1 acq4.SegmentCount,
      ∃ v rest, driver4 s = .ok (v, rest) ∧ v.length = acq4.SegmentSize := by
    intro s _
    exact ⟨[(s : ℤ), 0, 7], (5, 3), rfl, rfl⟩
  exact ⟨h, transfer_data_segment_calls acq4 chan4 driver4 h⟩

/-- Summed affine form: `Σ (a·x + b - y)` in terms of the fit sums. -/
theorem sum_map_affine (pts : List (ℚ × ℚ)) (a b : ℚ) :
    (pts.map (fun p => a * p.1 + b - p.2)).sum
      = a * lstsqSx pts + (pts.length : ℚ) * b - lstsqSy pts := by
  induction pts with
  | nil => simp [lstsqSx, lstsqSy]
  | cons p t ih =>
      simp only [List.map_cons, List.sum_cons, lstsqSx, lstsqSy,
        List.length_cons] at ih ⊢
      push_cast
      linear_combination ih

/-- Summed affine form against `x`: `Σ (a·x + b - y)·x`. -/
theorem sum_map_affine_mul (pts : List (ℚ × ℚ)) (a b : ℚ) :
    (pts.map (fun p => (a * p.1 + b - p.2) * p.1)).sum
      = a * lstsqSxx pts + b * lstsqSx pts - lstsqSxy pts := by
  induction pts with
  | nil => simp [lstsqSxx, lstsqSx, lstsqSxy]
  | cons p t ih =>
      simp only [List.map_cons, List.sum_cons, lstsqSxx, lstsqSx, lstsqSxy,
        List.length_cons] at ih ⊢
      linear_combination ih

/-- First normal equation: the full-rank fit's residuals sum to zero. -/
theorem lstsq_normal_eq_const (pts : List (ℚ × ℚ)) (hd : lstsqDen pts ≠ 0) :
    (pts.map (fun p => lstsqSlope pts * p.1 + lstsqOffset pts - p.2)).sum
      = 0 := by
  rw [sum_map_affine]
  rw [lstsqSlope, lstsqOffset]
  rw [lstsqDen] at hd ⊢
  field_simp
  ring

/-- Second normal equation: the residuals are orthogonal to `x`. -/
theorem lstsq_normal_eq_lin (pts : List (ℚ × ℚ)) (hd : lstsqDen pts ≠ 0) :
    (pts.map (fun p =>
        (lstsqSlope pts * p.1 + lstsqOffset pts - p.2) * p.1)).sum = 0 := by
  rw [sum_map_affine_mul]
  rw [lstsqSlope, lstsqOffset]
  rw [lstsqDen] at hd ⊢
  field_simp
  ring

/-- Decomposition of the residual sum of squares of any line around the
residuals of a reference line. -/
theorem rss_decomp (pts : List (ℚ × ℚ)) (s o u v : ℚ) :
    rssOf pts s o
      = rssOf pts u v
        + 2 * (s - u) * (pts.map (fun p => (u * p.1 + v - p.2) * p.1)).sum
        + 2 * (o - v) * (pts.map (fun p => u * p.1 + v - p.2)).sum
        + (pts.map (fun p => ((s - u) * p.1 + (o - v)) ^ 2)).sum := by
  induction pts with
  | nil => simp [rssOf]
  | cons p t ih =>
      simp only [rssOf, List.map_cons, List.sum_cons] at ih ⊢
      linear_combination ih

/-- In the full-rank case the fit minimizes the residual sum of squares. -/
theorem lstsq_rss_min (pts : List (ℚ × ℚ)) (hd : lstsqDen pts ≠ 0)
    (s o : ℚ) :
    rssOf pts (lstsqFit pts).1 (lstsqFit pts).2 ≤ rssOf pts s o := by
  have hfit : lstsqFit pts = (lstsqSlope pts, lstsqOffset pts) := by
    simp [lstsqFit, hd]
  rw [hfit]
  have hdecomp := rss_decomp pts s o (lstsqSlope pts) (lstsqOffset pts)
  rw [lstsq_normal_eq_lin pts hd, lstsq_normal_eq_const pts hd] at hdecomp
  have hnn : 0 ≤ (pts.map (fun p =>
      ((s - lstsqSlope pts) * p.1 + (o - lstsqOffset pts)) ^ 2)).sum := by
    refine List.sum_nonneg ?_
    intro x hx
    obtain ⟨p, _, rfl⟩ := List.mem_map.mp hx
    positivity
  nlinarith [hdecomp, hnn]

/-- C1: the calibration fit takes, per capture, the argmin along the
range-bin axis of each segment column, the median of those bins as the
capture's target bin, and returns as slope and offset the least-squares
solution of the system with design matrix `[target_bin, 1]`: whenever that
design matrix has full column rank, the returned pair minimizes the
residual sum of squares of `slope * target_bin + offset - distance` over
all candidate lines. -/
theorem compute_calibration_equation_least_squares :
    ∀ (data : List (List (List ℤ))) (distance : List ℚ),
      lstsqDen ((targetBins data).zip distance) ≠ 0 →
        targetBins data = data.map (fun capture =>
            npMedian ((colsOf capture).map (fun col => (argminIdx col : ℚ))))
        ∧ (compute_calibration_equation data distance).slope
            = (lstsqFit ((targetBins data).zip distance)).1
        ∧ (compute_calibration_equation data distance).offset
            = (lstsqFit ((targetBins data).zip distance)).2
        ∧ ∀ s o, rssOf ((targetBins data).zip distance)
              (compute_calibration_equation data distance).slope
              (compute_calibration_equation data distance).offset
            ≤ rssOf ((targetBins data).zip distance) s o := by
  intro data distance hd
  have hso : (compute_calibration_equation data distance).slope
        = (lstsqFit ((targetBins data).zip distance)).1
      ∧ (compute_calibration_equation data distance).offset
        = (lstsqFit ((targetBins data).zip distance)).2 := by
    unfold compute_calibration_equation
    cases h : lstsqResiduals ((targetBins data).zip distance) <;> simp [h]
  refine ⟨rfl, hso.1, hso.2, ?_⟩
  intro s o
  rw [hso.1, hso.2]
  exact lstsq_rss_min ((targetBins data).zip distance) hd s o

/-- C1 witness: the theorem applied to two concrete captures (2 range bins
by 1 segment, targets in bins 1 and 0, distances 10 and 20). -/
theorem compute_calibration_equation_least_squares_wit :
    lstsqDen ((targetBins calData1).zip calDist1) ≠ 0
    ∧ (targetBins calData1 = calData1.map (fun capture =>
          npMedian ((colsOf capture).map (fun col => (argminIdx col : ℚ))))
      ∧ (compute_calibration_equation calData1 calDist1).slope
          = (lstsqFit ((targetBins calData1).zip calDist1)).1
      ∧ (compute_calibration_equation calData1 calDist1).offset
          = (lstsqFit ((targetBins calData1).zip calDist1)).2
      ∧ ∀ s o, rssOf ((targetBins calData1).zip calDist1)
            (compute_calibration_equation calData1 calDist1).slope
            (compute_calibration_equation calData1 calDist1).offset
          ≤ rssOf ((targetBins calData1).zip calDist1) s o) := by
  have htb : targetBins calData1 = [((1 : ℕ) : ℚ), ((0 : ℕ) : ℚ)] := rfl
  have hd : lstsqDen ((targetBins calData1).zip calDist1) ≠ 0 := by
    rw [htb]
    simp only [calDist1, List.zip_cons_cons, List.zip_nil_right, lstsqDen,
      lstsqSxx, lstsqSx, List.map_cons, List.map_nil, List.sum_cons,
      List.sum_nil, List.length_cons, List.length_nil]
    norm_num
  exact ⟨hd, compute_calibration_equation_least_squares calData1 calDist1 hd⟩

/-- C8 counterexample: three captures whose target bins are all equal (the
design matrix is rank-deficient), so although `N = 3 ≥ 3` the residuals
come back empty and the goodness of fit is unavailable — with the
more-data warning raised. -/
theorem goodness_of_fit_rank_deficient_cex :
    data8.length = 3
    ∧ (compute_calibration_equation data8 [1, 2, 3]).r2 = none
    ∧ (compute_calibration_equation data8 [1, 2, 3]).warned = true := by
  have htb : targetBins data8 = [((1 : ℕ) : ℚ), ((1 : ℕ) : ℚ), ((1 : ℕ) : ℚ)] := rfl
  have hd : lstsqDen ((targetBins data8).zip [1, 2, 3]) = 0 := by
    rw [htb]
    simp only [List.zip_cons_cons, List.zip_nil_right, lstsqDen, lstsqSxx,
      lstsqSx, List.map_cons, List.map_nil, List.sum_cons, List.sum_nil,
      List.length_cons, List.length_nil]
    norm_num
  have hres : lstsqResiduals ((targetBins data8).zip [1, 2, 3]) = none := by
    simp [lstsqResiduals, hd]
  refine ⟨rfl, ?_, ?_⟩ <;> simp [compute_calibration_equation, hres]

/-- C8 amended: the goodness of fit is reported as
`1 - residuals / (N * var(distance))` exactly when `N ≥ 3` AND the design
matrix `[target_bin, 1]` has full column rank (the per-capture target bins
are not all equal); otherwise — too few captures or a rank-deficient
design matrix — the fit still returns its slope and offset but the
goodness of fit is unavailable and the more-data warning is raised. -/
theorem goodness_of_fit_conditions :
    ∀ (data : List (List (List ℤ))) (distance : List ℚ),
      (3 ≤ data.length → data.length = distance.length →
          lstsqDen ((targetBins data).zip distance) ≠ 0 →
          (compute_calibration_equation data distance).r2
            = some (1 - rssOf ((targetBins data).zip distance)
                  (lstsqFit ((targetBins data).zip distance)).1
                  (lstsqFit ((targetBins data).zip distance)).2
                / ((data.length : ℚ) * npVar distance))
          ∧ (compute_calibration_equation data distance).warned = false)
      ∧ (data.length < 3 ∨ lstsqDen ((targetBins data).zip distance) = 0 →
          (compute_calibration_equation data distance).r2 = none
          ∧ (compute_calibration_equation data distance).warned = true
          ∧ (compute_calibration_equation data distance).slope
              = (lstsqFit ((targetBins data).zip distance)).1
          ∧ (compute_calibration_equation data distance).offset
              = (lstsqFit ((targetBins data).zip distance)).2) := by
  intro data distance
  have hlen_tb : (targetBins data).length = data.length := by
    simp [targetBins]
  constructor
  · intro h3 hlen hd
    have hpts : ((targetBins data).zip distance).length = data.length := by
      simp [List.length_zip, hlen_tb, ← hlen]
    have hres : lstsqResiduals ((targetBins data).zip distance)
        = some (rssOf ((targetBins data).zip distance)
            (lstsqFit ((targetBins data).zip distance)).1
            (lstsqFit ((targetBins data).zip distance)).2) := by
      have hcond : 3 ≤ ((targetBins data).zip distance).length
          ∧ lstsqDen ((targetBins data).zip distance) ≠ 0 := ⟨by omega, hd⟩
      simp only [lstsqResiduals, if_pos hcond]
    constructor <;> simp [compute_calibration_equation, hres]
  · intro h
    have hcond : ¬(3 ≤ ((targetBins data).zip distance).length
        ∧ lstsqDen ((targetBins data).zip distance) ≠ 0) := by
      rcases h with h | h
      · intro hc
        have hmin : ((targetBins data).zip distance).length ≤ data.length := by
          rw [List.length_zip, hlen_tb]
          exact min_le_left _ _
        omega
      · intro hc
        exact hc.2 h
    have hres : lstsqResiduals ((targetBins data).zip distance) = none := by
      simp only [lstsqResiduals, if_neg hcond]
    refine ⟨?_, ?_, ?_, ?_⟩ <;> simp [compute_calibration_equation, hres]

end WingbeatLidar
